import Mathlib

/-!
Verification of the speech recognition loop in clients/speech/listener.py.

The embedding models the `AudioConsumer` dispatch (sleep/awake, wake-up
detection, clip-length gating, STT transcription with its error taxonomy)
and the `RecognizerLoop` reference-counted mute logic. External
capabilities (the wake-up engine, the STT backend, the microphone) are
modelled at the capability boundary: the wake-up engine as a boolean
function of the frame bytes, the STT backend by the outcome of one call
(success text or which exception class it raised), and the microphone by
its mute flag plus a trace of the mute/unmute operations invoked on it.
Events emitted on the bus are collected in order in a list.
-/

namespace Listener

/-- A captured audio segment: frame bytes plus sampling parameters
(`AudioData` as consumed by `AudioConsumer`). -/
structure AudioData where
  frame_data : List Nat
  sample_rate : Nat
  sample_width : Nat
  deriving DecidableEq

/-- Events emitted on the recognizer-loop event bus by the consumer
(the `recognizer_loop:` prefix of the source names is dropped). -/
inductive Event where
  | wakeword (utterance : String)
  | awoken
  | utterance (utterances : List String) (lang : String)
  | no_internet
  | speech_recognition_unknown
  | speak (utterance : String)
  deriving DecidableEq

/-- Whether an event is an `utterance` event. -/
def Event.isUtterance : Event → Bool
  | Event.utterance _ _ => true
  | _ => false

/-- Outcome of one call to the STT capability `self.stt.execute(audio)`:
either the returned text, or the exception class raised, matching the
`except` clauses of `AudioConsumer.transcribe` in order
(`sr.RequestError`, `ConnectionError`, `HTTPError` with its status code,
other `RequestException`, any other `Exception` with whether it is an
`IndexError`). -/
inductive STTOutcome where
  | ok (text : String)
  | requestError
  | connectionError
  | httpError (status : Nat)
  | requestException
  | unknownError (isIndexError : Bool)
  deriving DecidableEq

/-- `AudioConsumer.MIN_AUDIO_SIZE`: in seconds, the minimum audio size
to be sent to remote STT. -/
def MIN_AUDIO_SIZE : ℚ := 1/2

/-- `AudioConsumer._audio_length`: clip duration
`float(len(audio.frame_data)) / (audio.sample_rate * audio.sample_width)`. -/
def _audio_length (audio : AudioData) : ℚ :=
  (audio.frame_data.length : ℚ) /
    ((audio.sample_rate : ℚ) * (audio.sample_width : ℚ))

/-- `AudioConsumer.transcribe`: returns the transcription (normalised to
lower-case trimmed text) or `none`, together with the events emitted
during the call, by cases on the STT outcome. Success and HTTP 401
return early; every other handled exception falls through to the final
`speak` emission with dialog `not connected to the internet`; the
catch-all branch emits `speech.recognition.unknown` and returns early. -/
def transcribe (stt_result : STTOutcome) : Option String × List Event :=
  match stt_result with
  | STTOutcome.ok text => (some (text.toLower.trim), [])
  | STTOutcome.requestError =>
      (none, [Event.speak "not connected to the internet"])
  | STTOutcome.connectionError =>
      (none, [Event.no_internet, Event.speak "not connected to the internet"])
  | STTOutcome.httpError status =>
      if status = 401 then (some "pair my device", [])
      else (none, [Event.speak "not connected to the internet"])
  | STTOutcome.requestException =>
      (none, [Event.speak "not connected to the internet"])
  | STTOutcome.unknownError _ =>
      (none, [Event.speech_recognition_unknown])

/-- `AudioConsumer.process`: emit `wakeword` with the active word, then
gate on `_audio_length < MIN_AUDIO_SIZE`; if long enough, call
`transcribe` and, when the result is truthy (Python: non-None and
non-empty), emit `utterance {utterances: [text], lang}`. Returns the
events in emission order and whether the STT capability was invoked
(`transcribe` calls `self.stt.execute` unconditionally). -/
def process (word : String) (stt_lang : String) (audio : AudioData)
    (stt_result : STTOutcome) : List Event × Bool :=
  let evs := [Event.wakeword word]
  if _audio_length audio < MIN_AUDIO_SIZE then
    (evs, false)
  else
    match transcribe stt_result with
    | (some t, tevs) =>
        if t.isEmpty then (evs ++ tevs, true)
        else (evs ++ tevs ++ [Event.utterance [t] stt_lang], true)
    | (none, tevs) => (evs ++ tevs, true)

/-- Mutable state of the consumer across clips: the shared `sleeping`
flag and the currently-active wake word `self.word`. -/
structure ConsumerState where
  sleeping : Bool
  word : String
  deriving DecidableEq

/-- `AudioConsumer.wake_up`: if the dedicated wake-up engine reports a
match on the frame bytes, clear `sleeping` and emit `awoken`. -/
def wake_up (found_wake_word : List Nat → Bool) (st : ConsumerState)
    (audio : AudioData) : ConsumerState × List Event :=
  if found_wake_word audio.frame_data then
    ({ st with sleeping := false }, [Event.awoken])
  else
    (st, [])

/-- `AudioConsumer.read` (after the queue get): a `None` clip is a
no-op; otherwise dispatch on `sleeping` to `wake_up` or `process`.
Returns the new state, the events emitted in order, and whether the STT
capability was invoked. -/
def read (found_wake_word : List Nat → Bool) (stt_lang : String)
    (st : ConsumerState) (audio : Option AudioData)
    (stt_result : STTOutcome) : ConsumerState × List Event × Bool :=
  match audio with
  | none => (st, [], false)
  | some a =>
      if st.sleeping then
        let r := wake_up found_wake_word st a
        (r.1, r.2, false)
      else
        let r := process st.word stt_lang a stt_result
        (st, r.1, r.2)

/-- `AudioConsumer._set_word`: handler for inbound
`recognizer_loop:hotword` events; the event is modelled by its optional
`hotword` field, and `event.get` falls back to the primary wake-word
engine's `key_phrase`. -/
def _set_word (key_phrase : String) (st : ConsumerState)
    (event : Option String) : ConsumerState :=
  { st with word := event.getD key_phrase }

/-- Consumer state right after `AudioConsumer.__init__`: awake, with
`self.word` initialised to the primary engine's `key_phrase`. -/
def initConsumer (key_phrase : String) : ConsumerState :=
  { sleeping := false, word := key_phrase }

/-- Fold a sequence of inbound hotword events through `_set_word`, in
arrival order. -/
def applyHotwords (key_phrase : String) (st : ConsumerState)
    (events : List (Option String)) : ConsumerState :=
  events.foldl (_set_word key_phrase) st

/-- One call on the microphone capability (`MutableMicrophone.mute` or
`.unmute`). -/
inductive MicOp where
  | mute
  | unmute
  deriving DecidableEq

/-- Mute-related state of `RecognizerLoop`: the `mute_calls` counter
(a Python int), whether a microphone is configured (`self.microphone`
truthiness), the microphone's mute flag, and the trace of operations
invoked on the microphone capability. -/
structure LoopState where
  mute_calls : Int
  hasMic : Bool
  micMuted : Bool
  micTrace : List MicOp
  deriving DecidableEq

/-- `RecognizerLoop.__init__` / `_load_config`: `mute_calls = 0` and the
microphone is created with `mute=self.mute_calls > 0`, i.e. unmuted. -/
def initLoop (hasMic : Bool) : LoopState :=
  { mute_calls := 0, hasMic := hasMic, micMuted := false, micTrace := [] }

/-- `RecognizerLoop.mute`: increment `mute_calls`; if a microphone is
configured, invoke its `mute()`. -/
def mute (s : LoopState) : LoopState :=
  let s := { s with mute_calls := s.mute_calls + 1 }
  if s.hasMic = true then
    { s with micMuted := true, micTrace := s.micTrace ++ [MicOp.mute] }
  else s

/-- `RecognizerLoop.unmute`: decrement `mute_calls` if positive; then if
`mute_calls <= 0` and a microphone is configured, invoke its `unmute()`
and reset `mute_calls` to 0. -/
def unmute (s : LoopState) : LoopState :=
  let s :=
    if s.mute_calls > 0 then { s with mute_calls := s.mute_calls - 1 } else s
  if s.mute_calls ≤ 0 ∧ s.hasMic = true then
    { s with micMuted := false, micTrace := s.micTrace ++ [MicOp.unmute],
             mute_calls := 0 }
  else s

/-- `RecognizerLoop.force_unmute`: set `mute_calls` to 0, then call
`unmute`. -/
def force_unmute (s : LoopState) : LoopState :=
  unmute { s with mute_calls := 0 }

/-- C1: while `sleeping` is true, consuming a clip never emits an
`utterance` event and never invokes the STT capability; the clip is
only tested by the wake-up engine, and if that engine reports no match
the clip is discarded with no event and no state change. -/
theorem C1_asleep_no_utterance (fw : List Nat → Bool) (lang : String)
    (st : ConsumerState) (a : AudioData) (r : STTOutcome)
    (hs : st.sleeping = true) :
    (∀ e ∈ (read fw lang st (some a) r).2.1, e.isUtterance = false)
    ∧ (read fw lang st (some a) r).2.2 = false
    ∧ (fw a.frame_data = false →
        read fw lang st (some a) r = (st, [], false)) := by
  unfold read wake_up
  rw [hs]
  by_cases h : fw a.frame_data = true <;>
    simp [h, Event.isUtterance]

/-- Witness for C1 at a concrete sleeping state, clip and non-matching
wake-up engine. -/
theorem C1_asleep_no_utterance_witness :
    (∀ e ∈ (read (fun _ => false) "en-us" ⟨true, "hey mycroft"⟩
        (some ⟨[0, 1], 16000, 2⟩) STTOutcome.requestError).2.1,
      e.isUtterance = false)
    ∧ (read (fun _ => false) "en-us" ⟨true, "hey mycroft"⟩
        (some ⟨[0, 1], 16000, 2⟩) STTOutcome.requestError).2.2 = false
    ∧ ((fun _ : List Nat => false) [0, 1] = false →
        read (fun _ => false) "en-us" ⟨true, "hey mycroft"⟩
          (some ⟨[0, 1], 16000, 2⟩) STTOutcome.requestError
          = (⟨true, "hey mycroft"⟩, [], false)) :=
  C1_asleep_no_utterance (fun _ => false) "en-us" ⟨true, "hey mycroft"⟩
    ⟨[0, 1], 16000, 2⟩ STTOutcome.requestError rfl

/-- C2: for a clip processed while awake, the duration is computed as
`len(frame_data) / (sample_rate * sample_width)`, and if that duration
is strictly below 0.5 seconds the STT capability is never invoked: no
transcription is attempted and no `utterance` event is emitted (only
the `wakeword` event precedes the gate). -/
theorem C2_short_clip_skips_stt (fw : List Nat → Bool) (lang : String)
    (st : ConsumerState) (a : AudioData) (r : STTOutcome)
    (hs : st.sleeping = false)
    (hlen : (a.frame_data.length : ℚ) /
        ((a.sample_rate : ℚ) * (a.sample_width : ℚ)) < 1/2) :
    (read fw lang st (some a) r).2.2 = false
    ∧ (read fw lang st (some a) r).2.1 = [Event.wakeword st.word] := by
  have h : _audio_length a < MIN_AUDIO_SIZE := hlen
  unfold read process
  rw [hs]
  simp [h]

/-- Witness for C2 at a concrete awake state and a 100-byte clip at
16000 Hz with 2-byte samples (duration 100/32000 s). -/
theorem C2_short_clip_skips_stt_witness :
    (((List.replicate 100 0 : List Nat).length : ℚ) /
        ((16000 : ℚ) * (2 : ℚ)) < 1/2)
    ∧ ((read (fun _ => false) "en-us" ⟨false, "hey mycroft"⟩
          (some ⟨List.replicate 100 0, 16000, 2⟩) (STTOutcome.ok "hi")).2.2
        = false
      ∧ (read (fun _ => false) "en-us" ⟨false, "hey mycroft"⟩
          (some ⟨List.replicate 100 0, 16000, 2⟩) (STTOutcome.ok "hi")).2.1
        = [Event.wakeword "hey mycroft"]) :=
  ⟨by norm_num,
   C2_short_clip_skips_stt (fun _ => false) "en-us" ⟨false, "hey mycroft"⟩
     ⟨List.replicate 100 0, 16000, 2⟩ (STTOutcome.ok "hi") rfl
     (by norm_num)⟩

/-- C3: on HTTP 401 from the backend, `transcribe` returns the literal
string `pair my device`, and for a sufficiently long clip processed
while awake the consumer emits
`utterance {utterances: [pair my device], lang}`. -/
theorem C3_http401_pair_device (fw : List Nat → Bool) (lang : String)
    (st : ConsumerState) (a : AudioData)
    (hs : st.sleeping = false)
    (hlen : ¬ _audio_length a < MIN_AUDIO_SIZE) :
    transcribe (STTOutcome.httpError 401) = (some "pair my device", [])
    ∧ (read fw lang st (some a) (STTOutcome.httpError 401)).2.1
        = [Event.wakeword st.word,
           Event.utterance ["pair my device"] lang] := by
  refine ⟨rfl, ?_⟩
  unfold read process
  rw [hs]
  simp [hlen, transcribe]
  rw [if_neg (by decide : ¬ ("pair my device".isEmpty = true))]

/-- Witness for C3 at a concrete awake state and a 1-byte clip at
sample rate 2 and width 1 (duration exactly 0.5 s). -/
theorem C3_http401_pair_device_witness :
    ¬ _audio_length ⟨[0], 2, 1⟩ < MIN_AUDIO_SIZE
    ∧ (transcribe (STTOutcome.httpError 401) = (some "pair my device", [])
      ∧ (read (fun _ => false) "en-us" ⟨false, "hey mycroft"⟩
          (some ⟨[0], 2, 1⟩) (STTOutcome.httpError 401)).2.1
        = [Event.wakeword "hey mycroft",
           Event.utterance ["pair my device"] "en-us"]) :=
  ⟨by norm_num [_audio_length, MIN_AUDIO_SIZE],
   C3_http401_pair_device (fun _ => false) "en-us" ⟨false, "hey mycroft"⟩
     ⟨[0], 2, 1⟩ rfl (by norm_num [_audio_length, MIN_AUDIO_SIZE])⟩

/-- C5: on a network/connection fault, `transcribe` emits `no_internet`
and returns no transcription, and for a sufficiently long clip
processed while awake the consumer emits `no_internet` and no
`utterance` event for that clip. -/
theorem C5_connection_fault_no_internet (fw : List Nat → Bool)
    (lang : String) (st : ConsumerState) (a : AudioData)
    (hs : st.sleeping = false)
    (hlen : ¬ _audio_length a < MIN_AUDIO_SIZE) :
    (transcribe STTOutcome.connectionError).1 = none
    ∧ Event.no_internet ∈ (transcribe STTOutcome.connectionError).2
    ∧ Event.no_internet
        ∈ (read fw lang st (some a) STTOutcome.connectionError).2.1
    ∧ (∀ e ∈ (read fw lang st (some a) STTOutcome.connectionError).2.1,
        e.isUtterance = false) := by
  refine ⟨rfl, by simp [transcribe], ?_, ?_⟩ <;>
    · unfold read process
      rw [hs]
      simp [hlen, transcribe, Event.isUtterance]

/-- Witness for C5 at a concrete awake state and a 1-byte clip at
sample rate 2 and width 1. -/
theorem C5_connection_fault_no_internet_witness :
    ¬ _audio_length ⟨[0], 2, 1⟩ < MIN_AUDIO_SIZE
    ∧ ((transcribe STTOutcome.connectionError).1 = none
      ∧ Event.no_internet ∈ (transcribe STTOutcome.connectionError).2
      ∧ Event.no_internet
          ∈ (read (fun _ => false) "en-us" ⟨false, "hey mycroft"⟩
              (some ⟨[0], 2, 1⟩) STTOutcome.connectionError).2.1
      ∧ (∀ e ∈ (read (fun _ => false) "en-us" ⟨false, "hey mycroft"⟩
              (some ⟨[0], 2, 1⟩) STTOutcome.connectionError).2.1,
          e.isUtterance = false)) :=
  ⟨by norm_num [_audio_length, MIN_AUDIO_SIZE],
   C5_connection_fault_no_internet (fun _ => false) "en-us"
     ⟨false, "hey mycroft"⟩ ⟨[0], 2, 1⟩ rfl
     (by norm_num [_audio_length, MIN_AUDIO_SIZE])⟩

/-- C9: `transcribe` emits the `speak` event with utterance
`not connected to the internet` exactly when the STT call failed with a
recognition-engine request error, a connection error, a non-401 HTTP
error, or another request exception — never on success, on a 401, or on
an uncaught failure. -/
theorem C9_speak_iff_fallthrough (r : STTOutcome) :
    Event.speak "not connected to the internet" ∈ (transcribe r).2
    ↔ (r = STTOutcome.requestError
       ∨ r = STTOutcome.connectionError
       ∨ (∃ s, r = STTOutcome.httpError s ∧ s ≠ 401)
       ∨ r = STTOutcome.requestException) := by
  cases r with
  | ok t => simp [transcribe]
  | requestError => simp [transcribe]
  | connectionError => simp [transcribe]
  | httpError s =>
      by_cases h : s = 401 <;> simp [transcribe, h]
  | requestException => simp [transcribe]
  | unknownError b => simp [transcribe]

/-- C4 counterexample: on a recognition-engine request failure
(`sr.RequestError`), `transcribe` does emit an outward event — the
control flow falls through to the trailing `speak` emission — so the
claim that no event of any kind is emitted for this failure class is
false. -/
theorem C4_requestError_counterexample :
    (transcribe STTOutcome.requestError).1 = none
    ∧ (transcribe STTOutcome.requestError).2
        = [Event.speak "not connected to the internet"]
    ∧ (transcribe STTOutcome.requestError).2 ≠ [] := by
  refine ⟨rfl, rfl, ?_⟩
  simp [transcribe]

/-- C4 amended: on a recognition-engine request failure, `transcribe`
returns no transcription and emits no `utterance`, `no_internet` or
`speech.recognition.unknown` event, but it does emit the trailing
`speak {utterance: not connected to the internet}` event. -/
theorem C4_requestError_amended :
    transcribe STTOutcome.requestError
      = (none, [Event.speak "not connected to the internet"]) := rfl

/-- Folding hotword events through `_set_word` never touches the
`sleeping` flag. -/
theorem applyHotwords_sleeping (kp : String) (st : ConsumerState)
    (hws : List (Option String)) :
    (applyHotwords kp st hws).sleeping = st.sleeping := by
  induction hws generalizing st with
  | nil => rfl
  | cons h t ih =>
      rw [applyHotwords, List.foldl_cons]
      exact ih (_set_word kp st h)

/-- After folding hotword events through `_set_word`, the active word
is determined by the last event when one exists (its `hotword` field,
defaulting to the key phrase), and is unchanged otherwise. -/
theorem applyHotwords_word (kp : String) (st : ConsumerState)
    (hws : List (Option String)) :
    (applyHotwords kp st hws).word
      = (hws.getLast?.map (fun e => e.getD kp)).getD st.word := by
  induction hws generalizing st with
  | nil => rfl
  | cons h t ih =>
      rw [applyHotwords, List.foldl_cons]
      rw [show List.foldl (_set_word kp) (_set_word kp st h) t
            = applyHotwords kp (_set_word kp st h) t from rfl]
      rw [ih (_set_word kp st h)]
      cases t with
      | nil => rfl
      | cons x xs => simp [List.getLast?]

/-- `process` always emits the `wakeword` event first, before and
regardless of the minimum-duration gate. -/
theorem process_wakeword_head (w lang : String) (a : AudioData)
    (r : STTOutcome) :
    ∃ rest, (process w lang a r).1 = Event.wakeword w :: rest := by
  unfold process
  by_cases h : _audio_length a < MIN_AUDIO_SIZE
  · exact ⟨[], by simp [h]⟩
  · rcases ht : transcribe r with ⟨o, tevs⟩
    cases o with
    | none => exact ⟨tevs, by simp [h, ht]⟩
    | some t =>
        by_cases he : t.isEmpty = true
        · exact ⟨tevs, by simp [h, ht, he]⟩
        · exact ⟨tevs ++ [Event.utterance [t] lang], by simp [h, ht, he]⟩

/-- C8: for every clip processed while awake, the consumer first emits
a `wakeword` event carrying the currently-active wake phrase, which is
the one set by the most recent inbound `hotword` event if any occurred
(its `hotword` field, defaulting to the key phrase) and the primary
wake-word engine's key phrase otherwise. -/
theorem C8_wakeword_carries_active_word (kp lang : String)
    (hws : List (Option String)) (fw : List Nat → Bool) (a : AudioData)
    (r : STTOutcome) :
    ∃ rest,
      (read fw lang (applyHotwords kp (initConsumer kp) hws)
          (some a) r).2.1
        = Event.wakeword
            ((hws.getLast?.map (fun e => e.getD kp)).getD kp) :: rest := by
  have hsleep : (applyHotwords kp (initConsumer kp) hws).sleeping = false :=
    applyHotwords_sleeping kp (initConsumer kp) hws
  have hword : (applyHotwords kp (initConsumer kp) hws).word
      = (hws.getLast?.map (fun e => e.getD kp)).getD kp :=
    applyHotwords_word kp (initConsumer kp) hws
  unfold read
  rw [hsleep]
  rw [hword] at *
  simpa using process_wakeword_head
    ((hws.getLast?.map (fun e => e.getD kp)).getD kp) lang a r

/-- C7: if the system is asleep and the stand-up engine reports a match
on the consumed clip, `sleeping` becomes false and `awoken` is emitted
exactly once for that clip. -/
theorem C7_standup_match_awakens (fw : List Nat → Bool) (lang : String)
    (st : ConsumerState) (a : AudioData) (r : STTOutcome)
    (hs : st.sleeping = true) (hm : fw a.frame_data = true) :
    (read fw lang st (some a) r).1.sleeping = false
    ∧ (read fw lang st (some a) r).2.1 = [Event.awoken]
    ∧ ((read fw lang st (some a) r).2.1.count Event.awoken = 1) := by
  unfold read wake_up
  rw [hs]
  simp [hm]

/-- Witness for C7 at a concrete sleeping state and matching engine. -/
theorem C7_standup_match_awakens_witness :
    (read (fun _ => true) "en-us" ⟨true, "hey mycroft"⟩
        (some ⟨[0], 16000, 2⟩) STTOutcome.requestError).1.sleeping = false
    ∧ (read (fun _ => true) "en-us" ⟨true, "hey mycroft"⟩
        (some ⟨[0], 16000, 2⟩) STTOutcome.requestError).2.1 = [Event.awoken]
    ∧ ((read (fun _ => true) "en-us" ⟨true, "hey mycroft"⟩
        (some ⟨[0], 16000, 2⟩) STTOutcome.requestError).2.1.count
          Event.awoken = 1) :=
  C7_standup_match_awakens (fun _ => true) "en-us" ⟨true, "hey mycroft"⟩
    ⟨[0], 16000, 2⟩ STTOutcome.requestError rfl rfl

/-- `mute` increments `mute_calls` whether or not a microphone is
configured. -/
theorem mute_calls_succ (s : LoopState) :
    (mute s).mute_calls = s.mute_calls + 1 := by
  unfold mute
  by_cases h : s.hasMic = true <;> simp [h]

/-- `mute` leaves `hasMic` unchanged. -/
theorem mute_hasMic (s : LoopState) : (mute s).hasMic = s.hasMic := by
  unfold mute
  by_cases h : s.hasMic = true <;> simp [h]

/-- Iterating `mute` n times adds n to `mute_calls` and preserves
`hasMic`. -/
theorem mute_iter_calls (n : ℕ) (s : LoopState) :
    (mute^[n] s).mute_calls = s.mute_calls + n
    ∧ (mute^[n] s).hasMic = s.hasMic := by
  induction n generalizing s with
  | zero => simp
  | succ k ih =>
      rw [Function.iterate_succ_apply]
      rcases ih (mute s) with ⟨h1, h2⟩
      refine ⟨?_, by rw [h2, mute_hasMic]⟩
      rw [h1, mute_calls_succ]
      push_cast
      ring

/-- `unmute` on a counter strictly above 1 only decrements the
counter. -/
theorem unmute_of_gt_one (s : LoopState) (h : 1 < s.mute_calls) :
    unmute s = { s with mute_calls := s.mute_calls - 1 } := by
  unfold unmute
  rw [if_pos (by omega : s.mute_calls > 0)]
  rw [if_neg]
  intro hc
  exact absurd hc.1 (by simp only [LoopState.mk.injEq]; omega)

/-- `unmute` on a counter at most 0, with a microphone configured,
invokes the microphone's `unmute()` and resets the counter to 0. -/
theorem unmute_of_le_zero_mic (s : LoopState) (h : s.mute_calls ≤ 0)
    (hm : s.hasMic = true) :
    unmute s
      = { s with
          mute_calls := 0, micMuted := false,
          micTrace := s.micTrace ++ [MicOp.unmute] } := by
  unfold unmute
  rw [if_neg (by omega : ¬ s.mute_calls > 0)]
  rw [if_pos ⟨h, hm⟩]

/-- `unmute` on a counter equal to 1, with a microphone configured,
decrements to 0 and invokes the microphone's `unmute()`. -/
theorem unmute_of_eq_one_mic (s : LoopState) (h : s.mute_calls = 1)
    (hm : s.hasMic = true) :
    unmute s
      = { s with
          mute_calls := 0, micMuted := false,
          micTrace := s.micTrace ++ [MicOp.unmute] } := by
  unfold unmute
  rw [if_pos (by omega : s.mute_calls > 0)]
  rw [if_pos ⟨show s.mute_calls - 1 ≤ 0 by omega, hm⟩]

/-- Iterating `unmute` k+1 times from a counter of k+1 with a
microphone configured ends with the counter at 0 and the microphone
unmuted. -/
theorem unmute_iter (k : ℕ) (s : LoopState) (hm : s.hasMic = true)
    (hc : s.mute_calls = (k : ℤ) + 1) :
    (unmute^[k + 1] s).mute_calls = 0
    ∧ (unmute^[k + 1] s).micMuted = false := by
  induction k generalizing s with
  | zero =>
      rw [Function.iterate_one, unmute_of_eq_one_mic s (by omega) hm]
      exact ⟨rfl, rfl⟩
  | succ j ih =>
      rw [Function.iterate_succ_apply,
          unmute_of_gt_one s (by push_cast at hc; omega)]
      exact ih _ hm (by show s.mute_calls - 1 = (j : ℤ) + 1; omega)

/-- `force_unmute` with a microphone configured invokes the
microphone's `unmute()` and zeroes the counter. -/
theorem force_unmute_mic (s : LoopState) (hm : s.hasMic = true) :
    force_unmute s
      = { s with
          mute_calls := 0, micMuted := false,
          micTrace := s.micTrace ++ [MicOp.unmute] } := by
  unfold force_unmute
  rw [unmute_of_le_zero_mic { s with mute_calls := 0 } (le_refl (0 : ℤ)) hm]

/-- `force_unmute` zeroes the counter whether or not a microphone is
configured. -/
theorem force_unmute_calls (s : LoopState) :
    (force_unmute s).mute_calls = 0 := by
  by_cases hm : s.hasMic = true
  · rw [force_unmute_mic s hm]
  · unfold force_unmute unmute
    rw [if_neg (by omega : ¬ (0 : ℤ) > 0)]
    rw [if_neg]
    intro hc
    exact hm hc.2

/-- C6: with a microphone configured, N `mute()` calls followed by N
`unmute()` calls from the initial state leave the microphone unmuted
and the mute depth at zero; and `force_unmute()` from any mute depth
leaves the microphone unmuted and resets `mute_calls` to zero. -/
theorem C6_mute_unmute_balanced (n : ℕ) (s : LoopState)
    (hm : s.hasMic = true) :
    ((unmute^[n] (mute^[n] (initLoop true))).micMuted = false
      ∧ (unmute^[n] (mute^[n] (initLoop true))).mute_calls = 0)
    ∧ ((force_unmute s).micMuted = false
      ∧ (force_unmute s).mute_calls = 0) := by
  constructor
  · cases n with
    | zero => exact ⟨rfl, rfl⟩
    | succ k =>
        rcases mute_iter_calls (k + 1) (initLoop true) with ⟨h1, h2⟩
        have h := unmute_iter k (mute^[k + 1] (initLoop true)) h2
          (by rw [h1]; simp [initLoop])
        exact ⟨h.2, h.1⟩
  · rw [force_unmute_mic s hm]
    exact ⟨rfl, rfl⟩

/-- Witness for C6 with two nested mute/unmute pairs from the initial
state and a concrete `force_unmute`. -/
theorem C6_mute_unmute_balanced_witness :
    ((unmute^[2] (mute^[2] (initLoop true))).micMuted = false
      ∧ (unmute^[2] (mute^[2] (initLoop true))).mute_calls = 0)
    ∧ ((force_unmute (initLoop true)).micMuted = false
      ∧ (force_unmute (initLoop true)).mute_calls = 0) :=
  C6_mute_unmute_balanced 2 (initLoop true) rfl

/-- `unmute` keeps the counter non-negative when it was. -/
theorem unmute_calls_nonneg (s : LoopState) (h : 0 ≤ s.mute_calls) :
    0 ≤ (unmute s).mute_calls := by
  unfold unmute
  by_cases h1 : s.mute_calls > 0
  · rw [if_pos h1]
    by_cases h2 : s.mute_calls - 1 ≤ 0 ∧ s.hasMic = true
    · rw [if_pos h2]
    · rw [if_neg h2]
      show (0 : ℤ) ≤ s.mute_calls - 1
      omega
  · rw [if_neg h1]
    by_cases h2 : s.mute_calls ≤ 0 ∧ s.hasMic = true
    · rw [if_pos h2]
    · rw [if_neg h2]
      exact h

/-- C10: `mute_calls` starts at zero and stays non-negative across
`mute`, `unmute` and `force_unmute`; `unmute` at depth zero with a
microphone configured leaves the counter at zero and still invokes the
microphone's `unmute()` operation. -/
theorem C10_mute_calls_invariant (s : LoopState)
    (h : 0 ≤ s.mute_calls) :
    (initLoop true).mute_calls = 0
    ∧ 0 ≤ (mute s).mute_calls
    ∧ 0 ≤ (unmute s).mute_calls
    ∧ 0 ≤ (force_unmute s).mute_calls
    ∧ (s.mute_calls = 0 → s.hasMic = true →
        (unmute s).mute_calls = 0
        ∧ (unmute s).micMuted = false
        ∧ (unmute s).micTrace = s.micTrace ++ [MicOp.unmute]) := by
  refine ⟨rfl, ?_, unmute_calls_nonneg s h, ?_, ?_⟩
  · rw [mute_calls_succ]
    omega
  · rw [force_unmute_calls]
  · intro h0 hm
    rw [unmute_of_le_zero_mic s (by omega) hm]
    exact ⟨rfl, rfl, rfl⟩

/-- Witness for C10 at the initial state with a microphone
configured. -/
theorem C10_mute_calls_invariant_witness :
    (initLoop true).mute_calls = 0
    ∧ 0 ≤ (mute (initLoop true)).mute_calls
    ∧ 0 ≤ (unmute (initLoop true)).mute_calls
    ∧ 0 ≤ (force_unmute (initLoop true)).mute_calls
    ∧ ((initLoop true).mute_calls = 0 → (initLoop true).hasMic = true →
        (unmute (initLoop true)).mute_calls = 0
        ∧ (unmute (initLoop true)).micMuted = false
        ∧ (unmute (initLoop true)).micTrace
            = (initLoop true).micTrace ++ [MicOp.unmute]) :=
  C10_mute_calls_invariant (initLoop true) (by decide)

end Listener
